import Mathlib

/-!
Verification of the MCP production test suite
(`codex-rs/scripts/mcp_production_test_suite.py`) and the skeleton quality
analyzer (`codex-rs/scripts/comprehensive_skeleton_test.py`).

The Python code is shallowly embedded: strings are `String`/`List Char`,
Python ints are `Int`/`Nat`, floats are modelled as `ℚ`, the mutable
`MCPProductionTestSuite` object is explicit state passing on `SuiteState`.
-/

/-! ## Small string utilities mirroring Python semantics -/

/-- ASCII lower-casing of a character code, as used by `str.lower()` and by
`re.IGNORECASE` on the ASCII inputs the suite works with. -/
def lowerNat (c : Char) : Nat :=
  if 65 ≤ c.toNat ∧ c.toNat ≤ 90 then c.toNat + 32 else c.toNat

/-- ASCII lower-casing of a character. -/
def asciiLower (c : Char) : Char :=
  if 65 ≤ c.toNat ∧ c.toNat ≤ 90 then Char.ofNat (c.toNat + 32) else c

/-- Embedding of Python `str.lower()` (ASCII range). -/
def strLower (s : String) : String := String.mk (s.data.map asciiLower)

/-- Embedding of Python `content.split(chr(10))`: split a character list at
every newline; the result always has one more part than there are newlines,
and `splitNl [] = [[]]` just as `str.split` returns one empty part. -/
def splitNl : List Char → List (List Char)
  | [] => [[]]
  | c :: cs =>
    match splitNl cs with
    | [] => [[]]
    | r :: rs => if c = '\n' then [] :: r :: rs else (c :: r) :: rs

/-- Embedding of Python `(chr(10)).join(parts)`. -/
def joinNl : List (List Char) → List Char
  | [] => []
  | [l] => l
  | l :: ls => l ++ '\n' :: joinNl ls

/-- Normalization of one Python slice bound for a sequence of length `n`:
negative indices count from the end, then the bound is clamped into
`[0, n]`. -/
def pyNorm (n : Nat) (i : Int) : Nat :=
  min n (Int.toNat (if i < 0 then i + n else i))

/-- Embedding of the Python slice `l[a:b]`. -/
def pySlice {α : Type} (l : List α) (a b : Int) : List α :=
  (l.take (pyNorm l.length b)).drop (pyNorm l.length a)

/-- Number of newline-separated parts of a file content, the
`len(lines)` of `verify_symbol_definition_precise`. -/
def numLines (content : String) : Nat := (splitNl content.data).length

/-! ## Regex patterns of the Verifier

Each pattern used in `verify_symbol_definition_precise` is a sequence of a
few literal fragments and whitespace classes, so a pattern is embedded as a
token list and matched with explicit backtracking, which has the same
Boolean semantics as `re.search` on these patterns. -/

/-- One regex token: a literal fragment, one-or-more whitespace, or
zero-or-more whitespace. -/
inductive RTok where
  | lit : List Char → RTok
  | ws1 : RTok
  | ws0 : RTok

/-- Characters of the regex class backslash-s (ASCII range). -/
def isSpaceCh (c : Char) : Bool :=
  c = ' ' || c = '\t' || c = '\n' || c = '\r' || c = Char.ofNat 11 || c = Char.ofNat 12

/-- Case-insensitive prefix test for a literal fragment (`re.IGNORECASE`). -/
def ciPrefix : List Char → List Char → Bool
  | [], _ => true
  | _ :: _, [] => false
  | p :: ps, c :: cs => (lowerNat p == lowerNat c) && ciPrefix ps cs

/-- Match a token sequence at the start of `cs`, with backtracking over
whitespace. Every recursive call strictly decreases `ts.length + cs.length`,
so fuel equal to that sum plus one never runs out and the function computes
the exact existential matching semantics of the regex. -/
def matchSeq : Nat → List RTok → List Char → Bool
  | 0, _, _ => false
  | _ + 1, [], _ => true
  | fuel + 1, .lit p :: ts, cs => ciPrefix p cs && matchSeq fuel ts (cs.drop p.length)
  | fuel + 1, .ws1 :: ts, cs =>
    match cs with
    | [] => false
    | c :: cs2 => isSpaceCh c && matchSeq fuel (.ws0 :: ts) cs2
  | fuel + 1, .ws0 :: ts, cs =>
    matchSeq fuel ts cs ||
      (match cs with
       | [] => false
       | c :: cs2 => isSpaceCh c && matchSeq fuel (.ws0 :: ts) cs2)

/-- Embedding of `re.search`: try to match the token sequence at every
position of the text. -/
def searchSeq (ts : List RTok) : List Char → Bool
  | [] => matchSeq (ts.length + 1) ts []
  | c :: cs => matchSeq (ts.length + (c :: cs).length + 1) ts (c :: cs) || searchSeq ts cs

/-- A literal token built from a string (the symbol name is inserted through
`re.escape`, hence literal). -/
def litTok (s : String) : RTok := .lit s.data

/-- The `class` patterns of `verify_symbol_definition_precise`. -/
def classPatterns (name : String) : List (List RTok) :=
  [ [litTok "class", .ws1, litTok name],
    [litTok "struct", .ws1, litTok name],
    [litTok "interface", .ws1, litTok name],
    [litTok "type", .ws1, litTok name],
    [litTok "export", .ws1, litTok "type", .ws1, litTok name],
    [litTok "export", .ws1, litTok "interface", .ws1, litTok name] ]

/-- The `function` patterns. -/
def functionPatterns (name : String) : List (List RTok) :=
  [ [litTok "function", .ws1, litTok name],
    [litTok "def", .ws1, litTok name],
    [litTok "fn", .ws1, litTok name],
    [litTok "export", .ws1, litTok "default", .ws1, litTok "function", .ws1, litTok name],
    [litTok "export", .ws1, litTok "function", .ws1, litTok name],
    [litTok "const", .ws1, litTok name, .ws0, litTok "="],
    [litTok "let", .ws1, litTok name, .ws0, litTok "="] ]

/-- The `method` patterns. -/
def methodPatterns (name : String) : List (List RTok) :=
  [ [litTok name, .ws0, litTok "("],
    [litTok "pub", .ws1, litTok "fn", .ws1, litTok name],
    [litTok "private", .ws1, litTok name],
    [litTok "public", .ws1, litTok name] ]

/-- The `variable` patterns. -/
def variablePatterns (name : String) : List (List RTok) :=
  [ [litTok "let", .ws1, litTok name],
    [litTok "const", .ws1, litTok name],
    [litTok "var", .ws1, litTok name] ]

/-- The `module` patterns. -/
def modulePatterns (name : String) : List (List RTok) :=
  [ [litTok "mod", .ws1, litTok name],
    [litTok "module", .ws1, litTok name],
    [litTok "namespace", .ws1, litTok name] ]

/-- Lookup in the `patterns` dictionary keyed by the lower-cased symbol
type; an unknown kind has no patterns, so the loop over its patterns is
skipped, exactly as `symbol_type_lower in patterns` failing. -/
def patternsFor (kindLower : String) (name : String) : List (List RTok) :=
  if kindLower = "class" then classPatterns name
  else if kindLower = "function" then functionPatterns name
  else if kindLower = "method" then methodPatterns name
  else if kindLower = "variable" then variablePatterns name
  else if kindLower = "module" then modulePatterns name
  else []

/-- The pattern loop of `verify_symbol_definition_precise`: some pattern of
the (lower-cased) kind matches somewhere in the slice text. -/
def kindMatch (symbol_type name : String) (sc : List Char) : Bool :=
  (patternsFor (strLower symbol_type) name).any (fun p => searchSeq p sc)

/-! ## The Verifier -/

/-- Case-sensitive prefix test on character lists. -/
def listPrefOf : List Char → List Char → Bool
  | [], _ => true
  | _ :: _, [] => false
  | a :: as, b :: bs => (a == b) && listPrefOf as bs

/-- Embedding of the Python membership test `needle in hay` on strings:
`needle` occurs as a contiguous substring of `hay`. -/
def listSubstrOf (needle : List Char) : List Char → Bool
  | [] => needle.isEmpty
  | c :: cs => listPrefOf needle (c :: cs) || listSubstrOf needle cs

/-- A single quote character, kept out of string literals. -/
def quoteCh : String := String.mk [Char.ofNat 39]

/-- Reason for an out-of-range claim:
`Invalid line range: {start_line}-{end_line} for file with {len(lines)} lines`. -/
def rangeReason (s e : Int) (n : Nat) : String :=
  "Invalid line range: " ++ toString s ++ "-" ++ toString e ++
    " for file with " ++ toString n ++ " lines"

/-- Reason for an absent name:
`Symbol name {name} (quoted) not found in specified range`. -/
def notFoundReason (name : String) : String :=
  "Symbol name " ++ quoteCh ++ name ++ quoteCh ++ " not found in specified range"

/-- Reason for a matched kind pattern: `Found {symbol_type} definition pattern`. -/
def patternReason (symbol_type : String) : String :=
  "Found " ++ symbol_type ++ " definition pattern"

/-- Reason for the weak-positive fallback. -/
def fallbackReason : String :=
  "Symbol name found in range (pattern match inconclusive)"

/-- The line slice `lines[start_line-1:end_line]` joined back with
newlines: the `symbol_content` the Verifier inspects. -/
def sliceChars (content : String) (s e : Int) : List Char :=
  joinNl (pySlice (splitNl content.data) (s - 1) e)

/-- The basic check `symbol_name in symbol_content`. -/
def nameInSlice (content : String) (s e : Int) (name : String) : Bool :=
  listSubstrOf name.data (sliceChars content s e)

/-- Embedding of `verify_symbol_definition_precise`, from the point the
file content has been read (`read_file_content` returns the empty string
when the file cannot be read, and the function treats falsy content as not
readable). -/
def verify_symbol_definition_precise (content name : String) (s e : Int)
    (symbol_type : String) : Bool × String :=
  if content = "" then (false, "File not readable")
  else if s < 1 ∨ (numLines content : Int) < e then
    (false, rangeReason s e (numLines content))
  else if nameInSlice content s e name then
    (if kindMatch symbol_type name (sliceChars content s e) then
      (true, patternReason symbol_type)
     else (true, fallbackReason))
  else (false, notFoundReason name)

example :
    verify_symbol_definition_precise "class Foo:\n  pass" "Foo" 1 2 "class" =
      (true, patternReason "class") := by decide

example :
    verify_symbol_definition_precise "class Foo:\n  pass" "Bar" 1 2 "class" =
      (false, notFoundReason "Bar") := by decide

example :
    verify_symbol_definition_precise "class Foo:\n  pass" "Foo" 1 99 "class" =
      (false, rangeReason 1 99 2) := by decide

/-! ## Case Runner state

The mutable fields of `MCPProductionTestSuite` that the claims concern:
the ordered run log `test_results` and the `passed`/`failed` counters. -/

/-- One entry of `self.test_results`, as appended by `log_test`. -/
structure TestResult where
  name : String
  success : Bool
  details : String
  severity : String
deriving DecidableEq

/-- The mutable suite state. -/
structure SuiteState where
  test_results : List TestResult
  passed : Nat
  failed : Nat
deriving DecidableEq

/-- The freshly constructed suite: empty log, zero counters. -/
def initState : SuiteState := ⟨[], 0, 0⟩

/-- Embedding of `log_test`: append one outcome to the ordered log and
bump exactly one of the two counters. -/
def log_test (st : SuiteState) (name : String) (success : Bool)
    (details : String) (severity : String) : SuiteState :=
  { test_results := st.test_results ++ [⟨name, success, details, severity⟩],
    passed := if success then st.passed + 1 else st.passed,
    failed := if success then st.failed else st.failed + 1 }

/-- Arguments of one `log_test` call. -/
structure LogOp where
  name : String
  success : Bool
  details : String
  severity : String
deriving DecidableEq

/-- Run a sequence of `log_test` calls against the fresh suite. -/
def runLog (ops : List LogOp) : SuiteState :=
  ops.foldl (fun st op => log_test st op.name op.success op.details op.severity) initState

/-! ## Aggregator -/

/-- The `total` of `print_production_summary`: `self.passed + self.failed`. -/
def suite_total (st : SuiteState) : Nat := st.passed + st.failed

/-- Embedding of `success_rate = (self.passed / total * 100) if total > 0 else 0`. -/
def success_rate (passed total : Nat) : ℚ :=
  if 0 < total then (passed : ℚ) / (total : ℚ) * 100 else 0

/-- Embedding of
`file_success_rate = (successful_files / total_files) * 100 if total_files > 0 else 0`
from `test_csharp_comprehensive_accuracy`. -/
def file_success_rate (successful_files total_files : Nat) : ℚ :=
  if 0 < total_files then (successful_files : ℚ) / (total_files : ℚ) * 100 else 0

/-- Embedding of
`symbol_accuracy = (verified_symbols / total_symbols) * 100 if total_symbols > 0 else 0`
from `test_csharp_comprehensive_accuracy`. -/
def symbol_accuracy (verified_symbols total_symbols : Nat) : ℚ :=
  if 0 < total_symbols then (verified_symbols : ℚ) / (total_symbols : ℚ) * 100 else 0

/-! ## Readiness Classifier -/

/-- The list comprehension
`[r for r in self.test_results if not r.success and r.severity == "CRITICAL"]`. -/
def critical_failures (results : List TestResult) : List TestResult :=
  results.filter (fun r => !r.success && r.severity == "CRITICAL")

/-- The analogous list of failed WARNING-severity outcomes. -/
def warning_failures (results : List TestResult) : List TestResult :=
  results.filter (fun r => !r.success && r.severity == "WARNING")

/-- The three-way readiness decision of `print_production_summary`,
returning the printed STATUS string. -/
def production_status (st : SuiteState) : String :=
  if (critical_failures st.test_results).length = 0 ∧
      80 ≤ success_rate st.passed (suite_total st) then
    "PRODUCTION READY"
  else if (critical_failures st.test_results).length = 0 then
    "MOSTLY READY (Minor Issues)"
  else
    "NOT READY (Critical Issues)"

/-- The three readiness verdicts of the specification. -/
inductive Verdict where
  | READY
  | MOSTLY_READY
  | NOT_READY
deriving DecidableEq

/-- Modelled from the claim wording: first critical failures veto, then the
80 percent success-rate threshold, else mostly ready. -/
def classify_claim (crit : Nat) (rate : ℚ) : Verdict :=
  if 0 < crit then .NOT_READY
  else if 80 ≤ rate then .READY
  else .MOSTLY_READY

/-- The STATUS string the code prints for each verdict. -/
def verdictStatus : Verdict → String
  | .READY => "PRODUCTION READY"
  | .MOSTLY_READY => "MOSTLY READY (Minor Issues)"
  | .NOT_READY => "NOT READY (Critical Issues)"

/-! ## Issue report of `print_production_summary` -/

/-- The loop `for result in self.test_results: if not result.success: print(...)`:
the failing outcomes in original execution order. -/
def failuresInOrder : List TestResult → List TestResult
  | [] => []
  | r :: rs => if r.success then failuresInOrder rs else r :: failuresInOrder rs

/-- The ISSUE ANALYSIS block: rendered only when `self.failed > 0`, and then
it enumerates the failing outcomes in log order. -/
def issue_report (st : SuiteState) : List TestResult :=
  if 0 < st.failed then failuresInOrder st.test_results else []

/-- Failing outcomes of one severity, in log order. -/
def severity_failures (sev : String) (results : List TestResult) : List TestResult :=
  results.filter (fun r => !r.success && r.severity == sev)

/-- Modelled from the claim wording: the issue list ordered CRITICAL first,
then WARNING, then INFO, ties within a severity kept in execution order
(a stable severity sort). -/
def issue_report_claim (st : SuiteState) : List TestResult :=
  severity_failures "CRITICAL" st.test_results ++
    severity_failures "WARNING" st.test_results ++
      severity_failures "INFO" st.test_results

/-! ## `run_production_tests` control flow -/

/-- Outcome of the initial connectivity probe
`requests.get(server_url + "/test", timeout=5)`. -/
inductive ConnCheck where
  | ok
  | badStatus (code : Nat)
  | connError (msg : String)
deriving DecidableEq

/-- Embedding of the control flow of `run_production_tests`: when the probe
raises or returns a non-200 status the method prints a CRITICAL message and
returns at once; only on success does it run the four test suites (their
combined effect on the state is the parameter `suites`). -/
def run_production_tests (conn : ConnCheck) (suites : SuiteState → SuiteState)
    (st : SuiteState) : SuiteState :=
  match conn with
  | .ok => suites st
  | .badStatus _ => st
  | .connError _ => st

/-! ## Skeleton quality (`comprehensive_skeleton_test.py`) -/

/-- Non-overlapping occurrence counting, left to right, one step per
consumed character block; fuel `hay.length` is exact because every step
consumes at least one character of a non-empty needle. -/
def countSubAux : Nat → List Char → List Char → Nat
  | 0, _, _ => 0
  | _ + 1, _, [] => 0
  | fuel + 1, needle, c :: cs =>
    if listPrefOf needle (c :: cs) then
      1 + countSubAux fuel needle ((c :: cs).drop needle.length)
    else
      countSubAux fuel needle cs

/-- Embedding of Python `hay.count(needle)` (for the empty needle Python
counts `len(hay) + 1` slots). -/
def pyCount (needle hay : String) : Nat :=
  if needle.data = [] then hay.data.length + 1
  else countSubAux hay.data.length needle.data hay.data

/-- The preservation formula of `analyze_skeleton_quality`:
`found / max(original_analysis.get(key, 1), 1) * 100`, with the dictionary
default 1 for a missing key and the denominator floored at 1. -/
def element_preservation (found : Nat) (expected : Option Nat) : ℚ :=
  (found : ℚ) / (max (expected.getD 1) 1 : ℕ) * 100

/-- The Python-branch preservation triple (classes, functions, imports) of
`analyze_skeleton_quality`, with the skeleton element counts computed by
`skeleton.count(...)` as in the code. -/
def skeleton_preservation_python (skeleton : String)
    (origClasses origFunctions origImports : Option Nat) : ℚ × ℚ × ℚ :=
  ( element_preservation (pyCount "class " skeleton) origClasses,
    element_preservation (pyCount "def " skeleton) origFunctions,
    element_preservation (pyCount "import " skeleton + pyCount "from " skeleton) origImports )

/-- The C#-branch preservation triple (namespaces, classes, methods). -/
def skeleton_preservation_csharp (skeleton : String)
    (origNamespaces origClasses origMethods : Option Nat) : ℚ × ℚ × ℚ :=
  ( element_preservation (pyCount "namespace " skeleton) origNamespaces,
    element_preservation (pyCount "class " skeleton + pyCount "interface " skeleton) origClasses,
    element_preservation (pyCount "public " skeleton + pyCount "private " skeleton) origMethods )

/-- The C++-branch preservation triple (includes, classes, functions). -/
def skeleton_preservation_cpp (skeleton : String)
    (origIncludes origClasses origFunctions : Option Nat) : ℚ × ℚ × ℚ :=
  ( element_preservation (pyCount "#include" skeleton) origIncludes,
    element_preservation (pyCount "class " skeleton) origClasses,
    element_preservation (pyCount "::" skeleton + pyCount "(" skeleton) origFunctions )

example : pyCount "class " "class A:\nclass B:" = 2 := by decide
example : element_preservation 2 (some 1) = 200 := by norm_num [element_preservation]

/-! ## Theorems -/

/-- Helper: the counter invariant is preserved by any sequence of
`log_test` calls. -/
theorem foldl_log_invariant (ops : List LogOp) (st : SuiteState)
    (h : st.passed + st.failed = st.test_results.length) :
    (ops.foldl (fun st op => log_test st op.name op.success op.details op.severity) st).passed +
        (ops.foldl (fun st op => log_test st op.name op.success op.details op.severity) st).failed =
      (ops.foldl (fun st op => log_test st op.name op.success op.details op.severity) st).test_results.length := by
  induction ops generalizing st with
  | nil => exact h
  | cons op ops ih =>
    refine ih _ ?_
    rcases hop : op.success <;> simp [log_test, hop] <;> omega

/-- C7: every run log, including the empty one, satisfies
`total = passed + failed`, and each `log_test` call appends exactly one
outcome and increments exactly one of the two counters. -/
theorem log_counts_invariant :
    (∀ ops : List LogOp,
        (runLog ops).passed + (runLog ops).failed = (runLog ops).test_results.length ∧
        suite_total (runLog ops) = (runLog ops).test_results.length) ∧
    (∀ (st : SuiteState) (n : String) (s : Bool) (d sev : String),
        (log_test st n s d sev).test_results = st.test_results ++ [⟨n, s, d, sev⟩] ∧
        (log_test st n s d sev).passed = (if s then st.passed + 1 else st.passed) ∧
        (log_test st n s d sev).failed = (if s then st.failed else st.failed + 1) ∧
        (log_test st n s d sev).passed + (log_test st n s d sev).failed =
          st.passed + st.failed + 1) := by
  constructor
  · intro ops
    have h := foldl_log_invariant ops initState (by simp [initState])
    exact ⟨h, h⟩
  · intro st n s d sev
    refine ⟨rfl, rfl, rfl, ?_⟩
    rcases s <;> simp [log_test] <;> omega

/-- C8: the three rate computations are total: they divide only when the
denominator is positive and yield 0 on a zero denominator, so aggregation
is defined for every input including an empty run. -/
theorem metrics_are_total :
    ∀ p t f tf v tv : Nat,
      success_rate p (t + 1) = (p : ℚ) / ((t : ℚ) + 1) * 100 ∧
      success_rate p 0 = 0 ∧
      file_success_rate f (tf + 1) = (f : ℚ) / ((tf : ℚ) + 1) * 100 ∧
      file_success_rate f 0 = 0 ∧
      symbol_accuracy v (tv + 1) = (v : ℚ) / ((tv : ℚ) + 1) * 100 ∧
      symbol_accuracy v 0 = 0 := by
  intro p t f tf v tv
  refine ⟨?_, by simp [success_rate], ?_, by simp [file_success_rate], ?_,
    by simp [symbol_accuracy]⟩
  · rw [success_rate, if_pos (Nat.succ_pos t)]; push_cast; ring
  · rw [file_success_rate, if_pos (Nat.succ_pos tf)]; push_cast; ring
  · rw [symbol_accuracy, if_pos (Nat.succ_pos tv)]; push_cast; ring

/-- C1: the readiness decision of `print_production_summary` is exactly the
three-way classification of the claim (critical failures veto first, then
the 80 threshold with 80 itself READY), including a critical veto at
success rate 100 and READY at exactly 80. -/
theorem readiness_classification :
    (∀ st : SuiteState,
        production_status st =
          verdictStatus (classify_claim (critical_failures st.test_results).length
            (success_rate st.passed (suite_total st)))) ∧
    production_status ⟨[], 4, 1⟩ = "PRODUCTION READY" ∧
    production_status ⟨[], 79, 21⟩ = "MOSTLY READY (Minor Issues)" ∧
    production_status ⟨[⟨"connectivity", false, "", "CRITICAL"⟩], 1, 0⟩ =
      "NOT READY (Critical Issues)" := by
  refine ⟨?_, ?_, ?_, ?_⟩
  · intro st
    by_cases h1 : (critical_failures st.test_results).length = 0 <;>
      by_cases h2 : 80 ≤ success_rate st.passed (suite_total st) <;>
        simp [production_status, classify_claim, verdictStatus, h1, h2,
          Nat.pos_iff_ne_zero]
  · norm_num [production_status, critical_failures, success_rate, suite_total]
  · norm_num [production_status, critical_failures, success_rate, suite_total]
  · norm_num [production_status, critical_failures, success_rate, suite_total]

/-- C9: every element-preservation percentage is `found / expected * 100`
with the denominator floored at 1 (missing dictionary keys default to 1),
so the denominator is positive and no division by zero occurs; when the
found count exceeds the floored expected count the value exceeds 100, and
such values are produced as ordinary results. -/
theorem element_preservation_formula :
    (∀ (found : Nat) (expected : Option Nat),
        (0 : ℚ) < ((max (expected.getD 1) 1 : ℕ) : ℚ) ∧
        element_preservation found expected * ((max (expected.getD 1) 1 : ℕ) : ℚ) =
          (found : ℚ) * 100) ∧
    (∀ (found : Nat) (expected : Option Nat),
        max (expected.getD 1) 1 < found → 100 < element_preservation found expected) ∧
    (∀ (sk : String) (a b c : Option Nat),
        skeleton_preservation_python sk a b c =
          (element_preservation (pyCount "class " sk) a,
           element_preservation (pyCount "def " sk) b,
           element_preservation (pyCount "import " sk + pyCount "from " sk) c) ∧
        skeleton_preservation_csharp sk a b c =
          (element_preservation (pyCount "namespace " sk) a,
           element_preservation (pyCount "class " sk + pyCount "interface " sk) b,
           element_preservation (pyCount "public " sk + pyCount "private " sk) c) ∧
        skeleton_preservation_cpp sk a b c =
          (element_preservation (pyCount "#include" sk) a,
           element_preservation (pyCount "class " sk) b,
           element_preservation (pyCount "::" sk + pyCount "(" sk) c)) ∧
    (skeleton_preservation_python "class A:\nclass B:" (some 1) none none).1 = 200 ∧
    (100 : ℚ) < (skeleton_preservation_python "class A:\nclass B:" (some 1) none none).1 := by
  have hc : pyCount "class " "class A:\nclass B:" = 2 := by decide
  refine ⟨?_, ?_, fun sk a b c => ⟨rfl, rfl, rfl⟩, ?_, ?_⟩
  · intro found expected
    have hpos : 0 < max (expected.getD 1) 1 := lt_of_lt_of_le Nat.zero_lt_one (le_max_right _ _)
    have hq : (0 : ℚ) < ((max (expected.getD 1) 1 : ℕ) : ℚ) := by exact_mod_cast hpos
    refine ⟨hq, ?_⟩
    rw [element_preservation]
    field_simp
  · intro found expected hlt
    have hq : (0 : ℚ) < ((max (expected.getD 1) 1 : ℕ) : ℚ) := by
      exact_mod_cast lt_of_lt_of_le Nat.zero_lt_one (le_max_right _ _)
    rw [element_preservation, div_mul_eq_mul_div, lt_div_iff₀ hq]
    have : ((max (expected.getD 1) 1 : ℕ) : ℚ) < (found : ℚ) := by exact_mod_cast hlt
    nlinarith
  · show element_preservation (pyCount "class " "class A:\nclass B:") (some 1) = 200
    rw [hc]; norm_num [element_preservation]
  · show (100 : ℚ) < element_preservation (pyCount "class " "class A:\nclass B:") (some 1)
    rw [hc]; norm_num [element_preservation]

/-- C9 witness: at found count 2 against expected count 1 the hypothesis of
the above-100 statement holds and the preservation value exceeds 100. -/
theorem element_preservation_formula_witness :
    max ((some 1 : Option Nat).getD 1) 1 < 2 ∧
      100 < element_preservation 2 (some 1) :=
  ⟨by norm_num, element_preservation_formula.2.1 2 (some 1) (by norm_num)⟩

/-! ## Verifier lemmas -/

/-- Helper: string append acts as list append on the character data. -/
theorem str_data_append (a b : String) : (a ++ b).data = a.data ++ b.data := by
  cases a; cases b; rfl

/-- Helper: strings with different first characters differ. -/
theorem string_ne_of_head (a b : String) (c d : Char)
    (ha : a.data.head? = some c) (hb : b.data.head? = some d) (hcd : c ≠ d) :
    a ≠ b := by
  intro h
  rw [h, hb] at ha
  exact hcd (Option.some.inj ha).symm

/-- Helper: a range-error reason starts with the letter I. -/
theorem rangeReason_head (s e : Int) (n : Nat) :
    (rangeReason s e n).data.head? = some 'I' := by
  simp only [rangeReason, str_data_append, List.append_assoc]
  rfl

/-- Helper: a not-found reason starts with the letter S. -/
theorem notFoundReason_head (name : String) :
    (notFoundReason name).data.head? = some 'S' := by
  simp only [notFoundReason, str_data_append, List.append_assoc]
  rfl

/-- Helper: a pattern reason starts with the letter F. -/
theorem patternReason_head (symbol_type : String) :
    (patternReason symbol_type).data.head? = some 'F' := by
  simp only [patternReason, str_data_append, List.append_assoc]
  rfl

/-- Helper: the fallback reason starts with the letter S. -/
theorem fallbackReason_head : fallbackReason.data.head? = some 'S' := rfl

/-- Helper: the empty content splits into the single empty line, and every
slice of it joins back to the empty text. -/
theorem sliceChars_empty_content (s e : Int) : sliceChars "" s e = [] := by
  have h : splitNl (String.data "") = [[]] := rfl
  unfold sliceChars pySlice
  rw [h]
  rcases hk : pyNorm (List.length [([] : List Char)]) e with _ | k
  · simp [joinNl]
  · rcases hj : pyNorm (List.length [([] : List Char)]) (s - 1) with _ | j <;>
      simp [joinNl, List.take_succ_cons]

/-- Helper: a non-empty name is not a substring of the empty text. -/
theorem listSubstrOf_nil {name : String} (hn : name ≠ "") :
    listSubstrOf name.data [] = false := by
  cases name with
  | mk d =>
    cases d with
    | nil => exact absurd rfl hn
    | cons c cs => rfl

/-- Helper: on the empty content only the empty name passes the
name-in-slice check. -/
theorem nameInSlice_empty_content {s e : Int} {name : String}
    (h : nameInSlice "" s e name = true) : name = "" := by
  by_contra hn
  rw [nameInSlice, sliceChars_empty_content, listSubstrOf_nil hn] at h
  exact Bool.false_ne_true h

/-- Helper: the not-found branch of the Verifier. -/
theorem verify_notFound_of (content name symbol_type : String) (s e : Int)
    (hc : content ≠ "") (hr : ¬(s < 1 ∨ (numLines content : Int) < e))
    (hnot : nameInSlice content s e name = false) :
    verify_symbol_definition_precise content name s e symbol_type =
      (false, notFoundReason name) := by
  rw [verify_symbol_definition_precise, if_neg hc, if_neg hr, if_neg (by simp [hnot])]

/-- C2: for non-empty content, any claim with `start_line < 1` or
`end_line` above the line count is rejected with the range-error reason
naming the actual line count, and that reason differs from the not-found
reason and from both acceptance reasons. -/
theorem verifier_rejects_bad_range (content name symbol_type : String) (s e : Int)
    (hc : content ≠ "") (hr : s < 1 ∨ (numLines content : Int) < e) :
    verify_symbol_definition_precise content name s e symbol_type =
      (false, rangeReason s e (numLines content)) ∧
    rangeReason s e (numLines content) ≠ notFoundReason name ∧
    rangeReason s e (numLines content) ≠ patternReason symbol_type ∧
    rangeReason s e (numLines content) ≠ fallbackReason := by
  refine ⟨?_,
    string_ne_of_head _ _ _ _ (rangeReason_head s e _) (notFoundReason_head name) (by decide),
    string_ne_of_head _ _ _ _ (rangeReason_head s e _) (patternReason_head symbol_type) (by decide),
    string_ne_of_head _ _ _ _ (rangeReason_head s e _) fallbackReason_head (by decide)⟩
  rw [verify_symbol_definition_precise, if_neg hc, if_pos hr]

/-- C2 witness: a one-line file with claimed range 0 to 9 is rejected with
the range-error reason naming 1 line. -/
theorem verifier_rejects_bad_range_witness :
    ("a" : String) ≠ "" ∧ ((0 : Int) < 1 ∨ ((numLines "a" : Int) < 9)) ∧
    verify_symbol_definition_precise "a" "x" 0 9 "class" =
      (false, rangeReason 0 9 (numLines "a")) :=
  ⟨by decide, Or.inl (by decide),
    (verifier_rejects_bad_range "a" "x" "class" 0 9 (by decide) (Or.inl (by decide))).1⟩

/-- C2 counterexample: on the empty file content the line count is 1 and a
claimed `end_line` of 5 is out of range, yet the Verifier reports the file
as not readable instead of a range error naming the line count. -/
theorem verifier_rejects_bad_range_cex :
    verify_symbol_definition_precise "" "x" 1 5 "class" = (false, "File not readable") ∧
    numLines "" = 1 ∧
    (verify_symbol_definition_precise "" "x" 1 5 "class").2 ≠ rangeReason 1 5 (numLines "") := by
  decide

/-- C3: with a range the Verifier accepts (`start_line` at least 1,
`end_line` at most the line count) and the non-empty name present verbatim
in the line slice, the Verifier always returns verified = true, with either
the kind-pattern reason or the inconclusive fallback reason, for every
symbol type including unknown ones. -/
theorem verifier_accepts_present_name (content name symbol_type : String) (s e : Int)
    (hname : name ≠ "") (hs : 1 ≤ s) (he : e ≤ (numLines content : Int))
    (hin : nameInSlice content s e name = true) :
    (verify_symbol_definition_precise content name s e symbol_type).1 = true ∧
    ((verify_symbol_definition_precise content name s e symbol_type).2 =
        patternReason symbol_type ∨
      (verify_symbol_definition_precise content name s e symbol_type).2 =
        fallbackReason) := by
  by_cases hc : content = ""
  · rw [hc] at hin
    exact absurd (nameInSlice_empty_content hin) hname
  · have hr : ¬(s < 1 ∨ (numLines content : Int) < e) := by
      push_neg
      exact ⟨by omega, by omega⟩
    rw [verify_symbol_definition_precise, if_neg hc, if_neg hr, if_pos hin]
    by_cases hk : kindMatch symbol_type name (sliceChars content s e) = true
    · rw [if_pos hk]
      exact ⟨rfl, Or.inl rfl⟩
    · rw [if_neg hk]
      exact ⟨rfl, Or.inr rfl⟩

/-- C3 witness: the name Foo inside `class Foo:` on lines 1-2 is accepted. -/
theorem verifier_accepts_present_name_witness :
    ("Foo" : String) ≠ "" ∧ ((1 : Int) ≤ 1) ∧
    ((2 : Int) ≤ (numLines "class Foo:\n  pass" : Int)) ∧
    nameInSlice "class Foo:\n  pass" 1 2 "Foo" = true ∧
    ((verify_symbol_definition_precise "class Foo:\n  pass" "Foo" 1 2 "class").1 = true ∧
      ((verify_symbol_definition_precise "class Foo:\n  pass" "Foo" 1 2 "class").2 =
          patternReason "class" ∨
        (verify_symbol_definition_precise "class Foo:\n  pass" "Foo" 1 2 "class").2 =
          fallbackReason)) :=
  ⟨by decide, by decide, by decide, by decide,
    verifier_accepts_present_name "class Foo:\n  pass" "Foo" "class" 1 2
      (by decide) (by decide) (by decide) (by decide)⟩

/-- C4: for non-empty content and a range the Verifier accepts, a name that
does not occur verbatim in the line slice is rejected with the not-found
reason. -/
theorem verifier_rejects_absent_name (content name symbol_type : String) (s e : Int)
    (hc : content ≠ "") (hs : 1 ≤ s) (he : e ≤ (numLines content : Int))
    (hnot : nameInSlice content s e name = false) :
    verify_symbol_definition_precise content name s e symbol_type =
      (false, notFoundReason name) := by
  refine verify_notFound_of content name symbol_type s e hc ?_ hnot
  push_neg
  exact ⟨by omega, by omega⟩

/-- C4 witness: the name z is absent from a two-line file and rejected with
the not-found reason. -/
theorem verifier_rejects_absent_name_witness :
    ("a\nb" : String) ≠ "" ∧ ((1 : Int) ≤ 1) ∧
    ((2 : Int) ≤ (numLines "a\nb" : Int)) ∧
    nameInSlice "a\nb" 1 2 "z" = false ∧
    verify_symbol_definition_precise "a\nb" "z" 1 2 "class" =
      (false, notFoundReason "z") :=
  ⟨by decide, by decide, by decide, by decide,
    verifier_rejects_absent_name "a\nb" "z" "class" 1 2
      (by decide) (by decide) (by decide) (by decide)⟩

/-- C4 counterexample: the empty file content together with the valid range
1-1 and the absent name x is rejected with the not-readable reason, not
with the not-found reason the claim requires for every file content. -/
theorem verifier_rejects_absent_name_cex :
    verify_symbol_definition_precise "" "x" 1 1 "class" = (false, "File not readable") ∧
    (1 : Int) ≤ 1 ∧ ((1 : Int) ≤ (numLines "" : Int)) ∧
    nameInSlice "" 1 1 "x" = false ∧
    (verify_symbol_definition_precise "" "x" 1 1 "class").2 ≠ notFoundReason "x" := by
  decide

/-- Helper: with individually valid but inverted bounds and a non-negative
`end_line` the Python slice is empty, so the joined slice text is empty. -/
theorem sliceChars_inverted (content : String) (s e : Int)
    (hs : 1 ≤ s) (he0 : 0 ≤ e) (he : e ≤ (numLines content : Int)) (hinv : e < s) :
    sliceChars content s e = [] := by
  unfold sliceChars pySlice
  have hlen : (splitNl content.data).length = numLines content := rfl
  have hb : pyNorm (splitNl content.data).length e = e.toNat := by
    rw [pyNorm, if_neg (by omega)]
    exact min_eq_right (by rw [hlen]; exact Int.toNat_le.mpr he)
  have ha : e.toNat ≤ pyNorm (splitNl content.data).length (s - 1) := by
    rw [pyNorm, if_neg (by omega)]
    refine le_min ?_ ?_
    · rw [hlen]; exact Int.toNat_le.mpr he
    · exact Int.toNat_le_toNat (by omega)
  have hempty : (List.take (pyNorm (splitNl content.data).length e) (splitNl content.data)).drop
      (pyNorm (splitNl content.data).length (s - 1)) = [] := by
    refine List.drop_eq_nil_of_le ?_
    calc (List.take (pyNorm (splitNl content.data).length e) (splitNl content.data)).length
        ≤ pyNorm (splitNl content.data).length e := by
          rw [List.length_take]; exact min_le_left _ _
      _ = e.toNat := hb
      _ ≤ _ := ha
  rw [hempty]
  rfl

/-- C10 (amended): with non-empty content, a non-empty name, individually
valid bounds, a non-negative `end_line` and inverted order
`start_line > end_line`, the Verifier returns false with the not-found
reason: the inverted range yields an empty slice and the range check never
fires. -/
theorem verifier_inverted_range (content name symbol_type : String) (s e : Int)
    (hc : content ≠ "") (hn : name ≠ "") (hs : 1 ≤ s) (he0 : 0 ≤ e)
    (he : e ≤ (numLines content : Int)) (hinv : e < s) :
    verify_symbol_definition_precise content name s e symbol_type =
      (false, notFoundReason name) := by
  refine verify_notFound_of content name symbol_type s e hc (by push_neg; exact ⟨by omega, by omega⟩) ?_
  rw [nameInSlice, sliceChars_inverted content s e hs he0 he hinv]
  exact listSubstrOf_nil hn

/-- C10 witness: range 2-1 in a two-line file containing the name is
rejected with the not-found reason. -/
theorem verifier_inverted_range_witness :
    ("a\nb" : String) ≠ "" ∧ ("b" : String) ≠ "" ∧ ((1 : Int) ≤ 2) ∧
    ((0 : Int) ≤ 1) ∧ ((1 : Int) ≤ (numLines "a\nb" : Int)) ∧ ((1 : Int) < 2) ∧
    verify_symbol_definition_precise "a\nb" "b" 2 1 "class" =
      (false, notFoundReason "b") :=
  ⟨by decide, by decide, by decide, by decide, by decide, by decide,
    verifier_inverted_range "a\nb" "b" "class" 2 1
      (by decide) (by decide) (by decide) (by decide) (by decide) (by decide)⟩

/-- C10 counterexample: the inverted claim 2 to -1 has individually valid
bounds in the sense of the claim (`start_line` at least 1, `end_line` at
most the line count 3), yet the Python slice `lines[1:-1]` wraps the
negative bound to the second line, the name b is found there, and the
Verifier accepts with the fallback reason instead of rejecting. -/
theorem verifier_inverted_range_cex :
    ("a\nb\nc" : String) ≠ "" ∧ ("b" : String) ≠ "" ∧ ((1 : Int) ≤ 2) ∧
    ((-1 : Int) ≤ (numLines "a\nb\nc" : Int)) ∧ ((-1 : Int) < 2) ∧
    verify_symbol_definition_precise "a\nb\nc" "b" 2 (-1) "class" =
      (true, fallbackReason) := by
  decide

/-! ## Issue report and control flow theorems -/

/-- Helper: the issue loop keeps exactly the failing outcomes, in order. -/
theorem failuresInOrder_eq_filter (rs : List TestResult) :
    failuresInOrder rs = rs.filter (fun r => !r.success) := by
  induction rs with
  | nil => rfl
  | cons r rs ih =>
    rcases hr : r.success <;> simp [failuresInOrder, hr, ih]

/-- A run log reaching the ISSUE ANALYSIS block with one failed INFO case
logged before one failed CRITICAL case. -/
def issueCexOps : List LogOp :=
  [ ⟨"Core: Function reference accuracy", false, "Failed to get references", "INFO"⟩,
    ⟨"C# Comprehensive Accuracy", false, "C# test directory not found", "CRITICAL"⟩ ]

/-- The suite state after the two logged failures above. -/
def issueCexState : SuiteState := runLog issueCexOps

/-- C5 counterexample: the rendered issue list keeps the original execution
order, INFO before CRITICAL, and therefore differs from the
severity-sorted list the claim describes. -/
theorem issue_report_order_cex :
    issue_report issueCexState =
      [ ⟨"Core: Function reference accuracy", false, "Failed to get references", "INFO"⟩,
        ⟨"C# Comprehensive Accuracy", false, "C# test directory not found", "CRITICAL"⟩ ] ∧
    issue_report_claim issueCexState =
      [ ⟨"C# Comprehensive Accuracy", false, "C# test directory not found", "CRITICAL"⟩,
        ⟨"Core: Function reference accuracy", false, "Failed to get references", "INFO"⟩ ] ∧
    issue_report issueCexState ≠ issue_report_claim issueCexState := by
  decide

/-- C5 (amended): whenever at least one case has failed, the final report
enumerates exactly the failing outcomes, each with its severity and
details, in original execution order (an order-preserving filter of the
run log, with no severity reordering). -/
theorem issue_report_is_ordered_filter (st : SuiteState) (h : 0 < st.failed) :
    issue_report st = st.test_results.filter (fun r => !r.success) ∧
    List.Sublist (issue_report st) st.test_results ∧
    ∀ r : TestResult, r ∈ issue_report st ↔ r ∈ st.test_results ∧ r.success = false := by
  have h1 : issue_report st = st.test_results.filter (fun r => !r.success) := by
    rw [issue_report, if_pos h, failuresInOrder_eq_filter]
  refine ⟨h1, ?_, ?_⟩
  · rw [h1]
    exact List.filter_sublist _
  · intro r
    rw [h1]
    simp [List.mem_filter]

/-- C5 witness: the two-failure log above has a positive failure counter
and its issue list is the order-preserving filter of the log. -/
theorem issue_report_is_ordered_filter_witness :
    0 < issueCexState.failed ∧
    issue_report issueCexState = issueCexState.test_results.filter (fun r => !r.success) :=
  ⟨by decide, (issue_report_is_ordered_filter issueCexState (by decide)).1⟩

/-- The effect of the first suite method when it logs its first failed
CRITICAL case; used to observe whether the suites ran at all. -/
def demoSuites (st : SuiteState) : SuiteState :=
  log_test st "Core: Config struct definition" false
    "Config definition not found in config.rs" "CRITICAL"

/-- C6 counterexample: on a failed connectivity probe `run_production_tests`
returns with the state untouched: no failed CRITICAL outcome is appended to
the run log (the log stays empty) and the subsequent test cases, which
would have changed the state, never execute. -/
theorem connectivity_failure_cex :
    run_production_tests (.badStatus 500) demoSuites initState = initState ∧
    (run_production_tests (.badStatus 500) demoSuites initState).test_results = [] ∧
    critical_failures (run_production_tests (.badStatus 500) demoSuites initState).test_results = [] ∧
    demoSuites initState ≠ initState := by
  decide

/-- C6 (amended): whenever the initial connectivity probe does not return
status 200 — bad status or raised exception — `run_production_tests`
returns immediately: no TestOutcome is appended and no subsequent test
case executes, for every suite body and every starting state. -/
theorem connectivity_failure_aborts (conn : ConnCheck)
    (suites : SuiteState → SuiteState) (st : SuiteState) (h : conn ≠ .ok) :
    run_production_tests conn suites st = st := by
  cases conn with
  | ok => exact absurd rfl h
  | badStatus c => rfl
  | connError m => rfl

/-- C6 witness: a connection exception aborts the run with the state
unchanged. -/
theorem connectivity_failure_aborts_witness :
    (ConnCheck.connError "Cannot connect to MCP server" ≠ .ok) ∧
    run_production_tests (.connError "Cannot connect to MCP server") demoSuites initState =
      initState :=
  ⟨by decide, connectivity_failure_aborts _ demoSuites initState (by decide)⟩
